/-
Verification of the CRT Snake game (src/main.py) against its specification.

The game logic of `SnakeGamePygame` is embedded shallowly:
* pixel rectangles (`pygame.Rect`) become the `Rect` structure over `Int`,
  with `colliderect` following pygame's strict-overlap semantics;
* the mutable game object becomes the `GameState` record; every mutating
  method becomes a state-passing function with the source's name;
* `random.Random.randint(a, b)` draws are modelled by an explicit stream
  `rnd : Nat → Nat × Nat` consumed at cursor `rngIdx`, each raw draw being
  reduced into the inclusive range `[a, b]`;
* the unbounded `while True` retry loop of `new_food` becomes a fueled
  recursion returning `Option`, so that divergence is observable as `none`
  for every fuel;
* the event loop of `run` becomes the `step` function over an `Event` type
  (timer tick, four arrow keys, space), and `steps` folds an event list;
* the ghosting pass of `draw` becomes `ghost_push` (append to the frame
  history, evict the oldest past capacity) together with `ghost_alpha` /
  `ghost_draw_list` (the per-frame blit opacities, as exact rationals).
Rendering-only data (colors, fonts, surfaces) is irrelevant to the claims
and frames are abstracted to identifiers (`Nat`); the numeric effect
parameters of `CrtStyle` that the logic reads are kept.
-/
import Mathlib

namespace CrtSnake

/-- Pixel rectangle, as `pygame.Rect`: position `x, y` and size `w, h`. -/
structure Rect where
  x : Int
  y : Int
  w : Int
  h : Int
  deriving DecidableEq, Repr

instance : Inhabited Rect := ⟨⟨0, 0, 0, 0⟩⟩

/-- Translation of a rectangle, as `pygame.Rect.move(dx, dy)`. -/
def Rect.move (r : Rect) (dx dy : Int) : Rect :=
  { r with x := r.x + dx, y := r.y + dy }

/-- Left edge, as `pygame.Rect.left`. -/
def Rect.left (r : Rect) : Int := r.x

/-- Right edge, as `pygame.Rect.right`. -/
def Rect.right (r : Rect) : Int := r.x + r.w

/-- Top edge, as `pygame.Rect.top`. -/
def Rect.top (r : Rect) : Int := r.y

/-- Bottom edge, as `pygame.Rect.bottom`. -/
def Rect.bottom (r : Rect) : Int := r.y + r.h

/-- Overlap test, as `pygame.Rect.colliderect`: true exactly when the two
rectangles share interior area (touching edges do not collide, and a
zero-sized rectangle collides with nothing). -/
def Rect.colliderect (a b : Rect) : Bool :=
  a.x < b.x + b.w && a.x + a.w > b.x && a.y < b.y + b.h && a.y + a.h > b.y

/-- Screen width in pixels (`SCREEN_WIDTH`). -/
def SCREEN_WIDTH : Nat := 800

/-- Screen height in pixels (`SCREEN_HEIGHT`). -/
def SCREEN_HEIGHT : Nat := 600

/-- Grid cell size in pixels (`UNIT_SIZE`). -/
def UNIT_SIZE : Nat := 20

/-- Thickness of the non-playable border (`BORDER_SIZE`). -/
def BORDER_SIZE : Nat := 20

/-- Score interval at which the CRT style rotates
(`STYLE_CHANGE_SCORE_INTERVAL`). -/
def STYLE_CHANGE_SCORE_INTERVAL : Nat := 5

/-- Capacity of the ghost-frame history (`max_ghosting_frames`). -/
def max_ghosting_frames : Nat := 5

/-- Numeric effect parameters of a CRT style (`CrtStyle.__init__`).
Colors and fonts are pure rendering data never read by the game logic and
are omitted; the alphas and densities are kept as exact rationals. -/
structure CrtStyle where
  scanline_alpha : ℚ
  ghosting_alpha : ℚ
  pixel_noise_density : ℚ
  pixel_noise_alpha : ℚ
  horizontal_banding_alpha : ℚ
  horizontal_banding_thickness : ℚ
  deriving DecidableEq, Repr

/-- The three styles appended by `_initialize_crt_styles`, in order:
green monochrome, amber monochrome, blue monochrome. -/
def crt_styles : List CrtStyle :=
  [⟨50, 20, 0, 0, 0, 0⟩,
   ⟨40, 30, 0, 0, 50, 2⟩,
   ⟨80, 15, 5 / 1000, 50, 0, 0⟩]

/-- The mutable state of `SnakeGamePygame`: snake segments (index 0 is the
head), food rectangle, direction character, running flag, scores, session
start time, ghost-frame history (frames abstracted to identifiers), current
style index, and the cursor into the random stream. -/
structure GameState where
  snake : List Rect
  food : Rect
  direction : Char
  running : Bool
  score : Nat
  high_score : Nat
  game_start_time : Nat
  ghosting_frames : List Nat
  current_style_index : Nat
  rngIdx : Nat
  deriving DecidableEq, Repr

/-- The style currently in effect (`self.current_style`), looked up from
the style list by the current index. -/
def current_style (s : GameState) : CrtStyle :=
  crt_styles.getD s.current_style_index ⟨0, 0, 0, 0, 0, 0⟩

/-- Models Python `random.Random.randint(a, b)`: the raw draw `r` reduced
into the inclusive range `[a, b]`. -/
def randint (a b r : Nat) : Nat := a + r % (b - a + 1)

/-- Smallest food grid column (`min_x` in `new_food`). -/
def min_x : Nat := BORDER_SIZE / UNIT_SIZE

/-- Largest food grid column (`max_x` in `new_food`). -/
def max_x : Nat := (SCREEN_WIDTH - BORDER_SIZE - UNIT_SIZE) / UNIT_SIZE

/-- Smallest food grid row (`min_y` in `new_food`). -/
def min_y : Nat := BORDER_SIZE / UNIT_SIZE

/-- Largest food grid row (`max_y` in `new_food`). -/
def max_y : Nat := (SCREEN_HEIGHT - BORDER_SIZE - UNIT_SIZE) / UNIT_SIZE

/-- One candidate food rectangle, built from the `i`-th pair of the random
stream exactly as in the body of the `new_food` loop. -/
def food_candidate (rnd : Nat → Nat × Nat) (i : Nat) : Rect :=
  let food_x := randint min_x max_x (rnd i).1 * UNIT_SIZE
  let food_y := randint min_y max_y (rnd i).2 * UNIT_SIZE
  ⟨(food_x : Int), (food_y : Int), (UNIT_SIZE : Int), (UNIT_SIZE : Int)⟩

/-- The `while True` loop of `new_food`: draw candidates from the stream
starting at cursor `i` until one hits no snake segment; `fuel` bounds the
number of iterations, `none` meaning the loop has not finished in `fuel`
rounds. Returns the food together with the advanced cursor. -/
def new_food_loop (snake : List Rect) (rnd : Nat → Nat × Nat) :
    Nat → Nat → Option (Rect × Nat)
  | _, 0 => none
  | i, fuel + 1 =>
    let f := food_candidate rnd i
    if snake.any (fun segment => segment.colliderect f) then
      new_food_loop snake rnd (i + 1) fuel
    else
      some (f, i + 1)

/-- `new_food`: replace the food with a fresh non-overlapping cell,
consuming random draws. -/
def new_food (rnd : Nat → Nat × Nat) (fuel : Nat) (s : GameState) :
    Option GameState :=
  (new_food_loop s.snake rnd s.rngIdx fuel).map
    (fun fi => { s with food := fi.1, rngIdx := fi.2 })

/-- Pixel x of the initial head: `((SCREEN_WIDTH // 2 - BORDER_SIZE) //
UNIT_SIZE) * UNIT_SIZE + BORDER_SIZE` from `start_game`. -/
def start_x : Nat :=
  (SCREEN_WIDTH / 2 - BORDER_SIZE) / UNIT_SIZE * UNIT_SIZE + BORDER_SIZE

/-- Pixel y of the initial head, analogous to `start_x`. -/
def start_y : Nat :=
  (SCREEN_HEIGHT / 2 - BORDER_SIZE) / UNIT_SIZE * UNIT_SIZE + BORDER_SIZE

/-- The three initial segments appended by `start_game`: head at
`(start_x, start_y)` and two segments extending to the left. -/
def initial_snake : List Rect :=
  [⟨(start_x : Int), (start_y : Int), (UNIT_SIZE : Int), (UNIT_SIZE : Int)⟩,
   ⟨(start_x : Int) - UNIT_SIZE, (start_y : Int), (UNIT_SIZE : Int), (UNIT_SIZE : Int)⟩,
   ⟨(start_x : Int) - UNIT_SIZE * 2, (start_y : Int), (UNIT_SIZE : Int), (UNIT_SIZE : Int)⟩]

/-- `start_game`: reset snake, direction, score and style index, spawn
food, set running, record the session start time `now` and clear the
ghost-frame history. The high score field is not touched. -/
def start_game (rnd : Nat → Nat × Nat) (fuel now : Nat) (s : GameState) :
    Option GameState :=
  let s1 := { s with snake := initial_snake, direction := 'R', score := 0,
                     current_style_index := 0 }
  (new_food rnd fuel s1).map
    (fun s2 => { s2 with running := true, game_start_time := now,
                         ghosting_frames := [] })

/-- The new head rectangle computed at the top of `move`: the current head
advanced one unit in the current direction (an unrecognized direction
character leaves the head in place, as the source's final `else`). -/
def new_head_pos (s : GameState) : Rect :=
  let head := s.snake.headI
  if s.direction = 'U' then head.move 0 (-(UNIT_SIZE : Int))
  else if s.direction = 'D' then head.move 0 (UNIT_SIZE : Int)
  else if s.direction = 'L' then head.move (-(UNIT_SIZE : Int)) 0
  else if s.direction = 'R' then head.move (UNIT_SIZE : Int) 0
  else head

/-- `move`: insert the new head at the front and pop the tail unless the
new head overlaps the food. -/
def move (s : GameState) : GameState :=
  let nh := new_head_pos s
  let snake1 := nh :: s.snake
  { s with snake := if nh.colliderect s.food then snake1 else snake1.dropLast }

/-- `check_food`: when the head overlaps the food, bump the score and the
high score, rotate the style index on positive multiples of the interval,
and spawn fresh food. -/
def check_food (rnd : Nat → Nat × Nat) (fuel : Nat) (s : GameState) :
    Option GameState :=
  if (s.snake.headI).colliderect s.food then
    let score := s.score + 1
    let high_score := max s.high_score score
    let idx :=
      if 0 < score ∧ score % STYLE_CHANGE_SCORE_INTERVAL = 0 then
        (s.current_style_index + 1) % crt_styles.length
      else s.current_style_index
    new_food rnd fuel
      { s with score := score, high_score := high_score,
               current_style_index := idx }
  else
    some s

/-- The wall test of `check_collisions`: head outside the playable area
(border inclusive). -/
def wall_collision (head : Rect) : Bool :=
  decide (head.left < (BORDER_SIZE : Int)) ||
  decide (head.right > (SCREEN_WIDTH : Int) - (BORDER_SIZE : Int)) ||
  decide (head.top < (BORDER_SIZE : Int)) ||
  decide (head.bottom > (SCREEN_HEIGHT : Int) - (BORDER_SIZE : Int))

/-- `check_collisions`: wall hit or head overlapping any body segment sets
the running flag to false. (The source also cancels the update timer; the
event model reflects that ticks are no-ops once not running.) -/
def check_collisions (s : GameState) : GameState :=
  let head := s.snake.headI
  let self_hit := s.snake.tail.any (fun segment => head.colliderect segment)
  if wall_collision head || self_hit then { s with running := false } else s

/-- The inputs the event loop of `run` reacts to: the `GAME_UPDATE` timer
event and the five handled key presses. -/
inductive Event where
  | tick : Event
  | key_left : Event
  | key_right : Event
  | key_up : Event
  | key_down : Event
  | key_space : Event
  deriving DecidableEq, Repr

/-- One iteration of the event handling in `run`: a timer tick runs
`move`, `check_food`, `check_collisions` only while running; an arrow key
sets the direction unless it is the exact reverse of the current one; space
restarts via `start_game` only when not running. -/
def step (rnd : Nat → Nat × Nat) (fuel now : Nat) (s : GameState) :
    Event → Option GameState
  | .tick =>
    if s.running then (check_food rnd fuel (move s)).map check_collisions
    else some s
  | .key_left => some (if s.direction ≠ 'R' then { s with direction := 'L' } else s)
  | .key_right => some (if s.direction ≠ 'L' then { s with direction := 'R' } else s)
  | .key_up => some (if s.direction ≠ 'D' then { s with direction := 'U' } else s)
  | .key_down => some (if s.direction ≠ 'U' then { s with direction := 'D' } else s)
  | .key_space => if s.running then some s else start_game rnd fuel now s

/-- A sequence of handled events, folded through `step`. -/
def steps (rnd : Nat → Nat × Nat) (fuel now : Nat) :
    List Event → GameState → Option GameState
  | [], s => some s
  | e :: es, s => (step rnd fuel now s e).bind (steps rnd fuel now es)

/-- The direction character an event requests, if any: the four arrow keys
request 'L', 'R', 'U', 'D'; other events request nothing. -/
def requested_direction : Event → Option Char
  | .key_left => some 'L'
  | .key_right => some 'R'
  | .key_up => some 'U'
  | .key_down => some 'D'
  | _ => none

/-- Whether `a` is the exact reverse of the direction `b`. -/
def is_reverse (a b : Char) : Bool :=
  (a == 'L' && b == 'R') || (a == 'R' && b == 'L') ||
  (a == 'U' && b == 'D') || (a == 'D' && b == 'U')

/-- The history update of the ghosting pass in `draw`: append the freshly
composed frame, then drop the oldest frame if the history exceeds the
capacity. -/
def ghost_push (frames : List Nat) (cur : Nat) : List Nat :=
  let fs := frames ++ [cur]
  if max_ghosting_frames < fs.length then fs.tail else fs

/-- The blit opacity that `draw` assigns to the frame at position `i` of a
history of length `n`: `ghosting_alpha * (1 - i / n)`. Position 0 is the
oldest frame. -/
def ghost_alpha (base : ℚ) (n i : Nat) : ℚ :=
  base * (1 - (i : ℚ) / (n : ℚ))

/-- The ghost blits of `draw`, in draw order: each buffered frame paired
with its opacity, oldest first. -/
def ghost_draw_list (frames : List Nat) (base : ℚ) : List (Nat × ℚ) :=
  frames.enum.map (fun p => (p.2, ghost_alpha base frames.length p.1))

/-- The full ghosting pass of `draw` for one frame: the updated history,
and the blits performed on the screen in order — every buffered frame at
its decaying opacity, then the current frame fully opaque (alpha 255) on
top. -/
def draw_ghost_pass (frames : List Nat) (cur : Nat) (base : ℚ) :
    List Nat × List (Nat × ℚ) :=
  let buffered := ghost_push frames cur
  (buffered, ghost_draw_list buffered base ++ [(cur, 255)])

/-! Concrete states and streams used to instantiate the theorems. -/

/-- A constant random stream: every draw is `(0, 0)`, so every food
candidate is the top-left playable cell `(20, 20)`. -/
def rnd_demo : Nat → Nat × Nat := fun _ => (0, 0)

/-- A stream whose `n`-th draw is `(n, n)`: its candidates move along the
diagonal, so consecutive candidates differ. -/
def rnd_diag : Nat → Nat × Nat := fun n => (n, n)

/-- A mid-game running state: the initial snake shape, food away from the
snake at `(200, 200)`, heading right. -/
def s_demo : GameState :=
  { snake := [⟨400, 300, 20, 20⟩, ⟨380, 300, 20, 20⟩, ⟨360, 300, 20, 20⟩],
    food := ⟨200, 200, 20, 20⟩, direction := 'R', running := true,
    score := 0, high_score := 0, game_start_time := 0,
    ghosting_frames := [], current_style_index := 0, rngIdx := 0 }

/-- The state `s_demo` reaches after one (non-eating) tick. -/
def s_demo_tick : GameState :=
  { snake := [⟨420, 300, 20, 20⟩, ⟨400, 300, 20, 20⟩, ⟨380, 300, 20, 20⟩],
    food := ⟨200, 200, 20, 20⟩, direction := 'R', running := true,
    score := 0, high_score := 0, game_start_time := 0,
    ghosting_frames := [], current_style_index := 0, rngIdx := 0 }

/-- The state `new_food rnd_demo 5 s_demo` produces: food respawned at the
top-left playable cell, one draw consumed. -/
def s_demo_fed : GameState :=
  { s_demo with food := ⟨20, 20, 20, 20⟩, rngIdx := 1 }

/-- The state `start_game rnd_demo 5 0 s_demo` produces. -/
def s_start : GameState :=
  { snake := [⟨400, 300, 20, 20⟩, ⟨380, 300, 20, 20⟩, ⟨360, 300, 20, 20⟩],
    food := ⟨20, 20, 20, 20⟩, direction := 'R', running := true,
    score := 0, high_score := 0, game_start_time := 0,
    ghosting_frames := [], current_style_index := 0, rngIdx := 1 }

/-- The state `s_start` reaches after one (non-eating) tick. -/
def s_start_tick : GameState :=
  { s_start with
    snake := [⟨420, 300, 20, 20⟩, ⟨400, 300, 20, 20⟩, ⟨380, 300, 20, 20⟩] }

/-- A running state whose head sits on the leftmost playable column and is
heading left. -/
def s_left : GameState :=
  { snake := [⟨20, 300, 20, 20⟩, ⟨40, 300, 20, 20⟩, ⟨60, 300, 20, 20⟩],
    food := ⟨200, 200, 20, 20⟩, direction := 'L', running := true,
    score := 0, high_score := 0, game_start_time := 0,
    ghosting_frames := [], current_style_index := 0, rngIdx := 0 }

/-- The state `s_left` reaches after one tick: the head has left the
playable area and the running flag has dropped. -/
def s_left_tick : GameState :=
  { s_left with
    snake := [⟨0, 300, 20, 20⟩, ⟨20, 300, 20, 20⟩, ⟨40, 300, 20, 20⟩],
    running := false }

/-- A post-`move` state in which the head has just landed on the food,
with four segments and score 4 (so this catch reaches score 5). -/
def s_eat_prec : GameState :=
  { snake := [⟨420, 300, 20, 20⟩, ⟨400, 300, 20, 20⟩, ⟨380, 300, 20, 20⟩,
              ⟨360, 300, 20, 20⟩],
    food := ⟨420, 300, 20, 20⟩, direction := 'R', running := true,
    score := 4, high_score := 4, game_start_time := 0,
    ghosting_frames := [], current_style_index := 0, rngIdx := 0 }

/-- The state `check_food rnd_demo 5 s_eat_prec` produces: score 5 and the
style index rotated from 0 to 1. -/
def s_eat_fed : GameState :=
  { s_eat_prec with food := ⟨20, 20, 20, 20⟩, score := 5, high_score := 5,
                    current_style_index := 1, rngIdx := 1 }

/-- A game-over state reached mid-session, with nonzero score and a
rotated style, used to restart from. -/
def s_mid : GameState :=
  { snake := [⟨420, 300, 20, 20⟩, ⟨400, 300, 20, 20⟩, ⟨380, 300, 20, 20⟩],
    food := ⟨200, 200, 20, 20⟩, direction := 'R', running := false,
    score := 7, high_score := 9, game_start_time := 0,
    ghosting_frames := [3, 4], current_style_index := 1, rngIdx := 6 }

/-- The state `start_game rnd_demo 5 0 s_mid` produces: score and style
index zeroed, only the high score kept. -/
def s_mid_reset : GameState :=
  { snake := initial_snake, food := ⟨20, 20, 20, 20⟩, direction := 'R',
    running := true, score := 0, high_score := 9, game_start_time := 0,
    ghosting_frames := [], current_style_index := 0, rngIdx := 7 }

/-- A game-over state with direction right, used to show direction keys
are still processed after game over. -/
def s_over : GameState :=
  { snake := [⟨420, 300, 20, 20⟩, ⟨400, 300, 20, 20⟩, ⟨380, 300, 20, 20⟩],
    food := ⟨200, 200, 20, 20⟩, direction := 'R', running := false,
    score := 2, high_score := 2, game_start_time := 0,
    ghosting_frames := [], current_style_index := 0, rngIdx := 0 }

/-- A one-segment snake sitting on the top-left playable cell — the cell
the constant stream `rnd_demo` proposes forever. -/
def snake_trap : List Rect := [⟨20, 20, 20, 20⟩]

/-! Helper lemmas about the embedded operations. -/

theorem randint_ge (a b r : Nat) : a ≤ randint a b r :=
  Nat.le_add_right a _

theorem randint_le (a b r : Nat) (h : a ≤ b) : randint a b r ≤ b := by
  have hm : r % (b - a + 1) < b - a + 1 := Nat.mod_lt _ (Nat.succ_pos _)
  unfold randint
  omega

theorem food_candidate_spec (rnd : Nat → Nat × Nat) (i : Nat) :
    ∃ gx gy : Nat, min_x ≤ gx ∧ gx ≤ max_x ∧ min_y ≤ gy ∧ gy ≤ max_y ∧
      food_candidate rnd i =
        ⟨((gx * UNIT_SIZE : Nat) : Int), ((gy * UNIT_SIZE : Nat) : Int),
         (UNIT_SIZE : Int), (UNIT_SIZE : Int)⟩ :=
  ⟨randint min_x max_x (rnd i).1, randint min_y max_y (rnd i).2,
   randint_ge _ _ _, randint_le _ _ _ (by decide),
   randint_ge _ _ _, randint_le _ _ _ (by decide), rfl⟩

theorem new_food_loop_sound {snake : List Rect} {rnd : Nat → Nat × Nat} :
    ∀ fuel i f j, new_food_loop snake rnd i fuel = some (f, j) →
      (∃ k, f = food_candidate rnd k) ∧
      snake.any (fun segment => segment.colliderect f) = false := by
  intro fuel
  induction fuel with
  | zero => intro i f j h; simp [new_food_loop] at h
  | succ n ih =>
    intro i f j h
    rw [new_food_loop] at h
    by_cases hc :
        snake.any (fun segment => segment.colliderect (food_candidate rnd i)) = true
    · rw [if_pos hc] at h
      exact ih _ _ _ h
    · rw [if_neg hc] at h
      obtain ⟨rfl, rfl⟩ : food_candidate rnd i = f ∧ i + 1 = j := by
        simpa using h
      exact ⟨⟨i, rfl⟩, Bool.eq_false_iff.mpr hc⟩

theorem new_food_eq {rnd : Nat → Nat × Nat} {fuel : Nat} {s t : GameState}
    (h : new_food rnd fuel s = some t) :
    ∃ f j, new_food_loop s.snake rnd s.rngIdx fuel = some (f, j) ∧
      t = { s with food := f, rngIdx := j } := by
  unfold new_food at h
  rw [Option.map_eq_some'] at h
  obtain ⟨⟨f, j⟩, hfj, rfl⟩ := h
  exact ⟨f, j, hfj, rfl⟩

theorem new_food_fields {rnd : Nat → Nat × Nat} {fuel : Nat} {s t : GameState}
    (h : new_food rnd fuel s = some t) :
    t.snake = s.snake ∧ t.score = s.score ∧ t.high_score = s.high_score ∧
    t.running = s.running ∧ t.direction = s.direction ∧
    t.current_style_index = s.current_style_index ∧
    t.ghosting_frames = s.ghosting_frames ∧
    t.game_start_time = s.game_start_time := by
  obtain ⟨f, j, _, rfl⟩ := new_food_eq h
  exact ⟨rfl, rfl, rfl, rfl, rfl, rfl, rfl, rfl⟩

theorem new_food_no_overlap {rnd : Nat → Nat × Nat} {fuel : Nat}
    {s t : GameState} (h : new_food rnd fuel s = some t) :
    ∀ segment ∈ t.snake, segment.colliderect t.food = false := by
  obtain ⟨f, j, hloop, rfl⟩ := new_food_eq h
  have hany := (new_food_loop_sound fuel s.rngIdx f j hloop).2
  intro segment hseg
  exact Bool.eq_false_iff.mpr (List.any_eq_false.mp hany segment hseg)

theorem new_food_shape {rnd : Nat → Nat × Nat} {fuel : Nat} {s t : GameState}
    (h : new_food rnd fuel s = some t) :
    t.food.w = (UNIT_SIZE : Int) ∧ t.food.h = (UNIT_SIZE : Int) ∧
    ∃ gx gy : Nat, min_x ≤ gx ∧ gx ≤ max_x ∧ min_y ≤ gy ∧ gy ≤ max_y ∧
      t.food.x = ((gx * UNIT_SIZE : Nat) : Int) ∧
      t.food.y = ((gy * UNIT_SIZE : Nat) : Int) := by
  obtain ⟨f, j, hloop, rfl⟩ := new_food_eq h
  obtain ⟨k, rfl⟩ := (new_food_loop_sound fuel s.rngIdx f j hloop).1
  obtain ⟨gx, gy, h1, h2, h3, h4, heq⟩ := food_candidate_spec rnd k
  rw [heq]
  exact ⟨rfl, rfl, gx, gy, h1, h2, h3, h4, rfl, rfl⟩

theorem move_snake (s : GameState) :
    (move s).snake =
      if (new_head_pos s).colliderect s.food then new_head_pos s :: s.snake
      else (new_head_pos s :: s.snake).dropLast := rfl

theorem move_food (s : GameState) : (move s).food = s.food := rfl

theorem move_running (s : GameState) : (move s).running = s.running := rfl

theorem move_score (s : GameState) : (move s).score = s.score := rfl

theorem move_length (s : GameState) :
    (move s).snake.length =
      if (new_head_pos s).colliderect s.food then s.snake.length + 1
      else s.snake.length := by
  rw [move_snake]
  split
  · simp
  · simp [List.length_dropLast]

theorem move_headI (s : GameState) (h : s.snake ≠ []) :
    (move s).snake.headI = new_head_pos s := by
  rw [move_snake]
  split
  · rfl
  · cases hs : s.snake with
    | nil => exact absurd hs h
    | cons a l => simp [hs, List.dropLast]

theorem check_food_of_not_eat {rnd : Nat → Nat × Nat} {fuel : Nat}
    {s : GameState} (he : (s.snake.headI).colliderect s.food = false) :
    check_food rnd fuel s = some s := by
  simp [check_food, he]

theorem check_food_of_eat {rnd : Nat → Nat × Nat} {fuel : Nat}
    {s t : GameState} (he : (s.snake.headI).colliderect s.food = true)
    (h : check_food rnd fuel s = some t) :
    t.snake = s.snake ∧ t.running = s.running ∧
    t.score = s.score + 1 ∧ t.high_score = max s.high_score (s.score + 1) ∧
    t.current_style_index =
      (if (s.score + 1) % STYLE_CHANGE_SCORE_INTERVAL = 0 then
        (s.current_style_index + 1) % crt_styles.length
      else s.current_style_index) := by
  rw [check_food, if_pos he] at h
  have hf := new_food_fields h
  simp only [Nat.succ_pos, true_and] at hf
  obtain ⟨h1, h2, h3, h4, h5, h6, -, -⟩ := hf
  refine ⟨h1, h4, h2, h3, ?_⟩
  simpa using h6

theorem check_food_fields {rnd : Nat → Nat × Nat} {fuel : Nat}
    {s t : GameState} (h : check_food rnd fuel s = some t) :
    t.snake = s.snake ∧ t.running = s.running := by
  by_cases he : (s.snake.headI).colliderect s.food = true
  · obtain ⟨h1, h2, -⟩ := check_food_of_eat he h
    exact ⟨h1, h2⟩
  · rw [check_food_of_not_eat (Bool.eq_false_iff.mpr he)] at h
    cases h
    exact ⟨rfl, rfl⟩

theorem check_collisions_eq (s : GameState) :
    check_collisions s =
      if wall_collision s.snake.headI ||
          s.snake.tail.any (fun segment => (s.snake.headI).colliderect segment)
      then { s with running := false } else s := rfl

theorem check_collisions_snake (s : GameState) :
    (check_collisions s).snake = s.snake := by
  rw [check_collisions_eq]
  split <;> rfl

theorem check_collisions_score (s : GameState) :
    (check_collisions s).score = s.score := by
  rw [check_collisions_eq]
  split <;> rfl

theorem check_collisions_running (s : GameState) :
    (check_collisions s).running =
      if wall_collision s.snake.headI ||
          s.snake.tail.any (fun segment => (s.snake.headI).colliderect segment)
      then false else s.running := by
  by_cases h : (wall_collision s.snake.headI ||
      s.snake.tail.any (fun segment => (s.snake.headI).colliderect segment)) = true
  · rw [check_collisions_eq, if_pos h, if_pos h]
  · rw [check_collisions_eq, if_neg h, if_neg h]

theorem start_game_fields {rnd : Nat → Nat × Nat} {fuel now : Nat}
    {s t : GameState} (h : start_game rnd fuel now s = some t) :
    t.high_score = s.high_score ∧ t.score = 0 ∧ t.current_style_index = 0 ∧
    t.snake = initial_snake ∧ t.direction = 'R' ∧ t.running = true ∧
    t.game_start_time = now ∧ t.ghosting_frames = [] ∧
    (∀ segment ∈ t.snake, segment.colliderect t.food = false) := by
  unfold start_game at h
  rw [Option.map_eq_some'] at h
  obtain ⟨s2, h2, rfl⟩ := h
  obtain ⟨hsnake, hscore, hhigh, -, hdir, hidx, -, -⟩ := new_food_fields h2
  have hov := new_food_no_overlap h2
  exact ⟨hhigh, hscore, hidx, hsnake, hdir, rfl, rfl, rfl, hov⟩

theorem step_tick_eq {rnd : Nat → Nat × Nat} {fuel now : Nat}
    {s : GameState} (hrun : s.running = true) :
    step rnd fuel now s .tick =
      (check_food rnd fuel (move s)).map check_collisions := by
  simp [step, hrun]

theorem is_reverse_eq {c d : Char} (h : is_reverse c d = true) :
    (c = 'L' ∧ d = 'R') ∨ (c = 'R' ∧ d = 'L') ∨
    (c = 'U' ∧ d = 'D') ∨ (c = 'D' ∧ d = 'U') := by
  have h' := h
  simp only [is_reverse, Bool.or_eq_true, Bool.and_eq_true, beq_iff_eq] at h'
  tauto

/-! The claims. -/

/-- C1: for every tick executed while the session is running, the snake
length after the tick equals its length before, except when the new head
cell overlaps the (pre-tick) food cell, in which case it is exactly one
greater. -/
theorem C1_tick_length (rnd : Nat → Nat × Nat) (fuel now : Nat)
    (s s' : GameState) (hrun : s.running = true)
    (h : step rnd fuel now s .tick = some s') :
    s'.snake.length =
      if (new_head_pos s).colliderect s.food then s.snake.length + 1
      else s.snake.length := by
  rw [step_tick_eq hrun, Option.map_eq_some'] at h
  obtain ⟨t, ht, rfl⟩ := h
  rw [check_collisions_snake, (check_food_fields ht).1, move_length]

/-- Witness for C1: a concrete non-eating tick keeps the length at 3. -/
theorem C1_witness :
    s_demo.running = true ∧ step rnd_demo 5 0 s_demo .tick = some s_demo_tick ∧
    s_demo_tick.snake.length =
      (if (new_head_pos s_demo).colliderect s_demo.food then
        s_demo.snake.length + 1
      else s_demo.snake.length) :=
  ⟨rfl, by decide, C1_tick_length rnd_demo 5 0 s_demo s_demo_tick rfl (by decide)⟩

/-- C5: immediately after every successful `new_food` call, the food is a
grid-aligned unit square inside the playable grid range that overlaps no
snake segment. -/
theorem C5_new_food_valid (rnd : Nat → Nat × Nat) (fuel : Nat)
    (s s' : GameState) (h : new_food rnd fuel s = some s') :
    s'.food.w = (UNIT_SIZE : Int) ∧ s'.food.h = (UNIT_SIZE : Int) ∧
    (∃ gx gy : Nat, min_x ≤ gx ∧ gx ≤ max_x ∧ min_y ≤ gy ∧ gy ≤ max_y ∧
      s'.food.x = ((gx * UNIT_SIZE : Nat) : Int) ∧
      s'.food.y = ((gy * UNIT_SIZE : Nat) : Int)) ∧
    ∀ segment ∈ s'.snake, segment.colliderect s'.food = false := by
  obtain ⟨hw, hh, hgrid⟩ := new_food_shape h
  exact ⟨hw, hh, hgrid, new_food_no_overlap h⟩

/-- Witness for C5: a concrete `new_food` call lands on a free grid cell. -/
theorem C5_witness :
    new_food rnd_demo 5 s_demo = some s_demo_fed ∧
    (s_demo_fed.food.w = (UNIT_SIZE : Int) ∧
     s_demo_fed.food.h = (UNIT_SIZE : Int) ∧
     (∃ gx gy : Nat, min_x ≤ gx ∧ gx ≤ max_x ∧ min_y ≤ gy ∧ gy ≤ max_y ∧
       s_demo_fed.food.x = ((gx * UNIT_SIZE : Nat) : Int) ∧
       s_demo_fed.food.y = ((gy * UNIT_SIZE : Nat) : Int)) ∧
     ∀ segment ∈ s_demo_fed.snake,
       segment.colliderect s_demo_fed.food = false) :=
  ⟨by decide, C5_new_food_valid rnd_demo 5 s_demo s_demo_fed (by decide)⟩

/-- C6: on a tick from a running state, the session stops running exactly
when the new head is outside the playable bounds (border inclusive) or
overlaps another segment of the post-move snake; otherwise it remains
running. -/
theorem C6_tick_collision (rnd : Nat → Nat × Nat) (fuel now : Nat)
    (s s' : GameState) (hrun : s.running = true) (hne : s.snake ≠ [])
    (h : step rnd fuel now s .tick = some s') :
    s'.snake.headI = new_head_pos s ∧
    (s'.running = false ↔
      (wall_collision (new_head_pos s) = true ∨
       s'.snake.tail.any
         (fun segment => (new_head_pos s).colliderect segment) = true)) := by
  rw [step_tick_eq hrun, Option.map_eq_some'] at h
  obtain ⟨t, ht, rfl⟩ := h
  obtain ⟨hsnake, hrunt⟩ := check_food_fields ht
  have hheadt : t.snake.headI = new_head_pos s := by
    rw [hsnake, move_headI s hne]
  have hsnake' : (check_collisions t).snake = t.snake := check_collisions_snake t
  refine ⟨by rw [hsnake', hheadt], ?_⟩
  rw [check_collisions_running t, hheadt, hrunt, move_running, hrun, hsnake']
  by_cases hc : (wall_collision (new_head_pos s) ||
      t.snake.tail.any
        (fun segment => (new_head_pos s).colliderect segment)) = true
  · rw [if_pos hc]
    simp only [Bool.or_eq_true] at hc
    exact ⟨fun _ => hc, fun _ => rfl⟩
  · rw [if_neg hc]
    simp only [Bool.or_eq_true, not_or] at hc
    constructor
    · intro htf; exact absurd htf (by decide)
    · rintro (h1 | h2)
      · exact absurd h1 hc.1
      · exact absurd h2 hc.2

/-- Witness for C6: the head on the leftmost playable column moving left
leaves the bounds, and the running flag drops on that tick. -/
theorem C6_witness :
    s_left.running = true ∧ s_left.snake ≠ [] ∧
    step rnd_demo 5 0 s_left .tick = some s_left_tick ∧
    s_left_tick.running = false :=
  ⟨rfl, by decide, by decide,
    (C6_tick_collision rnd_demo 5 0 s_left s_left_tick rfl (by decide)
        (by decide)).2.mpr (Or.inl (by decide))⟩

/-- C7: on a food-consuming `check_food`, the score goes up by one, and
the style index advances by exactly one position cyclically over the
3-style list exactly when the new score is a multiple of the rotation
interval, and is unchanged otherwise. -/
theorem C7_style_rotation (rnd : Nat → Nat × Nat) (fuel : Nat)
    (s t : GameState) (he : (s.snake.headI).colliderect s.food = true)
    (h : check_food rnd fuel s = some t) :
    crt_styles.length = 3 ∧ t.score = s.score + 1 ∧
    t.current_style_index =
      (if t.score % STYLE_CHANGE_SCORE_INTERVAL = 0 then
        (s.current_style_index + 1) % crt_styles.length
      else s.current_style_index) := by
  obtain ⟨-, -, hscore, -, hidx⟩ := check_food_of_eat he h
  refine ⟨rfl, hscore, ?_⟩
  rw [hscore]
  exact hidx

/-- Witness for C7: a catch that takes the score from 4 to 5 rotates the
style index from 0 to 1. -/
theorem C7_witness :
    (s_eat_prec.snake.headI).colliderect s_eat_prec.food = true ∧
    check_food rnd_demo 5 s_eat_prec = some s_eat_fed ∧
    (crt_styles.length = 3 ∧ s_eat_fed.score = s_eat_prec.score + 1 ∧
     s_eat_fed.current_style_index =
       (if s_eat_fed.score % STYLE_CHANGE_SCORE_INTERVAL = 0 then
         (s_eat_prec.current_style_index + 1) % crt_styles.length
       else s_eat_prec.current_style_index)) :=
  ⟨by decide, by decide,
    C7_style_rotation rnd_demo 5 s_eat_prec s_eat_fed (by decide) (by decide)⟩

/-- C8: while running, a direction request that is the exact reverse of
the current direction leaves the whole state unchanged. -/
theorem C8_reverse_ignored (rnd : Nat → Nat × Nat) (fuel now : Nat)
    (s : GameState) (e : Event) (c : Char) ( _hrun : s.running = true)
    (hreq : requested_direction e = some c)
    (hrev : is_reverse c s.direction = true) :
    step rnd fuel now s e = some s := by
  cases e with
  | tick => simp [requested_direction] at hreq
  | key_space => simp [requested_direction] at hreq
  | key_left =>
    simp only [requested_direction, Option.some.injEq] at hreq
    subst hreq
    rcases is_reverse_eq hrev with ⟨hc, hd⟩ | ⟨hc, hd⟩ | ⟨hc, hd⟩ | ⟨hc, hd⟩ <;>
      first
        | exact absurd hc (by decide)
        | simp [step, hd]
  | key_right =>
    simp only [requested_direction, Option.some.injEq] at hreq
    subst hreq
    rcases is_reverse_eq hrev with ⟨hc, hd⟩ | ⟨hc, hd⟩ | ⟨hc, hd⟩ | ⟨hc, hd⟩ <;>
      first
        | exact absurd hc (by decide)
        | simp [step, hd]
  | key_up =>
    simp only [requested_direction, Option.some.injEq] at hreq
    subst hreq
    rcases is_reverse_eq hrev with ⟨hc, hd⟩ | ⟨hc, hd⟩ | ⟨hc, hd⟩ | ⟨hc, hd⟩ <;>
      first
        | exact absurd hc (by decide)
        | simp [step, hd]
  | key_down =>
    simp only [requested_direction, Option.some.injEq] at hreq
    subst hreq
    rcases is_reverse_eq hrev with ⟨hc, hd⟩ | ⟨hc, hd⟩ | ⟨hc, hd⟩ | ⟨hc, hd⟩ <;>
      first
        | exact absurd hc (by decide)
        | simp [step, hd]

/-- Witness for C8: pressing left while heading right changes nothing. -/
theorem C8_witness :
    s_demo.running = true ∧
    requested_direction Event.key_left = some 'L' ∧
    is_reverse 'L' s_demo.direction = true ∧
    step rnd_demo 5 0 s_demo Event.key_left = some s_demo :=
  ⟨rfl, rfl, by decide,
    C8_reverse_ignored rnd_demo 5 0 s_demo Event.key_left 'L' rfl rfl (by decide)⟩

/-- C3 counterexample: restarting from a game-over state with score 7 and
style index 1 resets both to 0 — they do not keep their values as the
claim states. -/
theorem C3_counterexample :
    s_mid.score = 7 ∧ s_mid.current_style_index = 1 ∧
    start_game rnd_demo 5 0 s_mid = some s_mid_reset ∧
    s_mid_reset.score ≠ s_mid.score ∧
    s_mid_reset.current_style_index ≠ s_mid.current_style_index := by
  decide

/-- C3 (amended): across a restart only the high score keeps its value;
score and style index are reset to 0, and snake, food, direction, running
flag, elapsed-time origin and frame history are reinitialized. -/
theorem C3_restart_reset (rnd : Nat → Nat × Nat) (fuel now : Nat)
    (s s' : GameState) (h : start_game rnd fuel now s = some s') :
    s'.high_score = s.high_score ∧ s'.score = 0 ∧
    s'.current_style_index = 0 ∧ s'.snake = initial_snake ∧
    s'.direction = 'R' ∧ s'.running = true ∧ s'.game_start_time = now ∧
    s'.ghosting_frames = [] ∧
    (∀ segment ∈ s'.snake, segment.colliderect s'.food = false) :=
  start_game_fields h

/-- Witness for C3: the concrete restart from `s_mid` keeps only the high
score 9. -/
theorem C3_witness :
    start_game rnd_demo 5 0 s_mid = some s_mid_reset ∧
    (s_mid_reset.high_score = s_mid.high_score ∧ s_mid_reset.score = 0 ∧
     s_mid_reset.current_style_index = 0 ∧ s_mid_reset.snake = initial_snake ∧
     s_mid_reset.direction = 'R' ∧ s_mid_reset.running = true ∧
     s_mid_reset.game_start_time = 0 ∧ s_mid_reset.ghosting_frames = [] ∧
     (∀ segment ∈ s_mid_reset.snake,
       segment.colliderect s_mid_reset.food = false)) :=
  ⟨by decide, C3_restart_reset rnd_demo 5 0 s_mid s_mid_reset (by decide)⟩

/-- C4 counterexample: in the game-over state a directional key is still
processed — pressing up changes the stored direction, so not every
non-restart input leaves the session unchanged. -/
theorem C4_counterexample :
    s_over.running = false ∧
    step rnd_demo 5 0 s_over Event.key_up =
      some { s_over with direction := 'U' } ∧
    ({ s_over with direction := 'U' } : GameState) ≠ s_over := by
  decide

/-- C4 (amended): in the game-over state, tick events leave the state
entirely unchanged; no event other than the restart key sets the running
flag (and none mutates snake, food or score); the restart key, when it
succeeds, transitions back to running. Directional keys may still change
the stored direction. -/
theorem C4_game_over (rnd : Nat → Nat × Nat) (fuel now : Nat)
    (s : GameState) (hrun : s.running = false) :
    step rnd fuel now s .tick = some s ∧
    (∀ e s', e ≠ Event.key_space → step rnd fuel now s e = some s' →
      s'.running = false ∧ s'.snake = s.snake ∧ s'.food = s.food ∧
      s'.score = s.score) ∧
    (∀ s', step rnd fuel now s .key_space = some s' → s'.running = true) := by
  refine ⟨by simp [step, hrun], ?_, ?_⟩
  · intro e s' hne h
    cases e with
    | tick =>
      simp [step, hrun] at h
      exact h ▸ ⟨hrun, rfl, rfl, rfl⟩
    | key_space => exact absurd rfl hne
    | key_left =>
      simp only [step, Option.some.injEq] at h
      subst h
      split <;> exact ⟨hrun, rfl, rfl, rfl⟩
    | key_right =>
      simp only [step, Option.some.injEq] at h
      subst h
      split <;> exact ⟨hrun, rfl, rfl, rfl⟩
    | key_up =>
      simp only [step, Option.some.injEq] at h
      subst h
      split <;> exact ⟨hrun, rfl, rfl, rfl⟩
    | key_down =>
      simp only [step, Option.some.injEq] at h
      subst h
      split <;> exact ⟨hrun, rfl, rfl, rfl⟩
  · intro s' h
    simp only [step, hrun, Bool.false_eq_true, if_false] at h
    exact (start_game_fields h).2.2.2.2.2.1

/-- Witness for C4: at the concrete game-over state `s_over`, a tick is a
no-op and space restarts. -/
theorem C4_witness :
    s_over.running = false ∧ step rnd_demo 5 0 s_over .tick = some s_over :=
  ⟨rfl, (C4_game_over rnd_demo 5 0 s_over rfl).1⟩

theorem start_game_inv {rnd : Nat → Nat × Nat} {fuel now : Nat}
    {s s' : GameState} (h : start_game rnd fuel now s = some s') :
    s'.snake.length = s'.score + 3 := by
  obtain ⟨-, hscore, -, hsnake, -⟩ := start_game_fields h
  rw [hsnake, hscore]
  rfl

theorem step_inv {rnd : Nat → Nat × Nat} {fuel now : Nat}
    {s s' : GameState} {e : Event} (hP : s.snake.length = s.score + 3)
    (h : step rnd fuel now s e = some s') :
    s'.snake.length = s'.score + 3 := by
  cases e with
  | tick =>
    by_cases hrun : s.running = true
    · rw [step_tick_eq hrun, Option.map_eq_some'] at h
      obtain ⟨t, ht, rfl⟩ := h
      rw [check_collisions_snake, check_collisions_score]
      have hne : s.snake ≠ [] := by
        intro hnil
        rw [hnil] at hP
        simp at hP
      by_cases he : (new_head_pos s).colliderect s.food = true
      · have he' : ((move s).snake.headI).colliderect (move s).food = true := by
          rw [move_headI s hne, move_food]; exact he
        obtain ⟨hsnake, -, hscore, -, -⟩ := check_food_of_eat he' ht
        rw [hsnake, hscore, move_length, move_score, if_pos he, hP]
      · have he' : ((move s).snake.headI).colliderect (move s).food = false := by
          rw [move_headI s hne, move_food]; exact Bool.eq_false_iff.mpr he
        rw [check_food_of_not_eat he'] at ht
        injection ht with ht'
        subst ht'
        rw [move_length, move_score, if_neg he]
        exact hP
    · have hrun' : s.running = false := Bool.eq_false_iff.mpr hrun
      simp [step, hrun'] at h
      exact h ▸ hP
  | key_left =>
    simp only [step, Option.some.injEq] at h
    subst h
    split <;> exact hP
  | key_right =>
    simp only [step, Option.some.injEq] at h
    subst h
    split <;> exact hP
  | key_up =>
    simp only [step, Option.some.injEq] at h
    subst h
    split <;> exact hP
  | key_down =>
    simp only [step, Option.some.injEq] at h
    subst h
    split <;> exact hP
  | key_space =>
    by_cases hrun : s.running = true
    · simp [step, hrun] at h
      exact h ▸ hP
    · have hrun' : s.running = false := Bool.eq_false_iff.mpr hrun
      simp only [step, hrun', Bool.false_eq_true, if_false] at h
      exact start_game_inv h

theorem steps_inv {rnd : Nat → Nat × Nat} {fuel now : Nat}
    (events : List Event) :
    ∀ s s' : GameState, s.snake.length = s.score + 3 →
      steps rnd fuel now events s = some s' →
      s'.snake.length = s'.score + 3 := by
  induction events with
  | nil =>
    intro s s' hP h
    rw [steps] at h
    injection h with h'
    exact h' ▸ hP
  | cons e es ih =>
    intro s s' hP h
    rw [steps] at h
    obtain ⟨t, ht, hrest⟩ := Option.bind_eq_some.mp h
    exact ih t s' (step_inv hP ht) hrest

/-- C10: in every state reachable from a (re)start by any sequence of
handled events, the number of snake segments equals the score plus 3. -/
theorem C10_length_score_invariant (rnd : Nat → Nat × Nat) (fuel now : Nat)
    (s0 s1 s2 : GameState) (events : List Event)
    (hstart : start_game rnd fuel now s0 = some s1)
    (hsteps : steps rnd fuel now events s1 = some s2) :
    s2.snake.length = s2.score + 3 :=
  steps_inv events s1 s2 (start_game_inv hstart) hsteps

/-- Witness for C10: a fresh session stepped through one tick has 3
segments and score 0. -/
theorem C10_witness :
    start_game rnd_demo 5 0 s_demo = some s_start ∧
    steps rnd_demo 5 0 [Event.tick] s_start = some s_start_tick ∧
    s_start_tick.snake.length = s_start_tick.score + 3 :=
  ⟨by decide, by decide,
   C10_length_score_invariant rnd_demo 5 0 s_demo s_start s_start_tick
     [Event.tick] (by decide) (by decide)⟩

theorem ghost_push_length (frames : List Nat) (cur : Nat)
    (h : frames.length ≤ max_ghosting_frames) :
    (ghost_push frames cur).length ≤ max_ghosting_frames := by
  simp only [ghost_push]
  split
  · simp only [List.length_tail, List.length_append, List.length_singleton]
    omega
  · rename_i h5
    simp only [not_lt] at h5
    exact h5

theorem ghost_push_evict (frames : List Nat) (cur : Nat)
    (h : frames.length = max_ghosting_frames) :
    ghost_push frames cur = frames.tail ++ [cur] := by
  cases frames with
  | nil => simp [max_ghosting_frames] at h
  | cons a l =>
    unfold ghost_push
    rw [if_pos]
    · simp
    · simp only [List.length_append, List.length_cons, List.length_singleton]
      simp only [List.length_cons] at h
      omega

theorem ghost_alpha_oldest (base : ℚ) (n : Nat) :
    ghost_alpha base n 0 = base := by
  unfold ghost_alpha
  simp

theorem ghost_alpha_strict_anti (base : ℚ) (n i j : Nat) (hbase : 0 < base)
    (hij : i < j) (hj : j < n) :
    ghost_alpha base n j < ghost_alpha base n i := by
  unfold ghost_alpha
  have hn : (0 : ℚ) < (n : ℚ) := by
    exact_mod_cast Nat.lt_of_le_of_lt (Nat.zero_le j) hj
  have hij' : (i : ℚ) < (j : ℚ) := by exact_mod_cast hij
  have h1 : (i : ℚ) / (n : ℚ) < (j : ℚ) / (n : ℚ) :=
    (div_lt_div_iff_of_pos_right hn).mpr hij'
  exact mul_lt_mul_of_pos_left (by linarith) hbase

/-- C2 counterexample: the style-0 base ghosting alpha is 20, and with a
full 5-frame buffer the code assigns the full 20 to the OLDEST buffered
frame and only 8 to the most recent past frame (position 3; position 4 is
the current frame) — opacity grows with age rather than shrinking. -/
theorem C2_counterexample :
    (crt_styles.getD 0 ⟨0, 0, 0, 0, 0, 0⟩).ghosting_alpha = 20 ∧
    ghost_draw_list [0, 1, 2, 3, 4] 20 =
      [(0, 20), (1, 16), (2, 12), (3, 8), (4, 4)] ∧
    ¬ ghost_alpha 20 5 0 < ghost_alpha 20 5 3 := by
  refine ⟨rfl, ?_, ?_⟩
  · norm_num [ghost_draw_list, ghost_alpha, List.enum, List.enumFrom]
  · norm_num [ghost_alpha]

/-- C2 (amended): the history keeps at most 5 frames (the current frame
included), evicting the oldest first; the buffered frames are drawn oldest
to newest with opacity decreasing strictly linearly from the full style
base alpha (oldest) towards zero (newest); the current frame is then drawn
fully opaque on top. -/
theorem C2_ghosting (frames : List Nat) (cur : Nat) (base : ℚ)
    (hlen : frames.length ≤ max_ghosting_frames) (hbase : 0 < base) :
    (ghost_push frames cur).length ≤ max_ghosting_frames ∧
    (frames.length = max_ghosting_frames →
      ghost_push frames cur = frames.tail ++ [cur]) ∧
    ghost_alpha base (ghost_push frames cur).length 0 = base ∧
    (∀ i j : Nat, i < j → j < (ghost_push frames cur).length →
      ghost_alpha base (ghost_push frames cur).length j <
        ghost_alpha base (ghost_push frames cur).length i) ∧
    (draw_ghost_pass frames cur base).2 =
      ghost_draw_list (ghost_push frames cur) base ++ [(cur, 255)] :=
  ⟨ghost_push_length frames cur hlen,
   fun h => ghost_push_evict frames cur h,
   ghost_alpha_oldest base _,
   fun i j hij hj => ghost_alpha_strict_anti base _ i j hbase hij hj,
   rfl⟩

/-- Witness for C2: a concrete 3-frame history plus the current frame,
with the style-0 base alpha 20. -/
theorem C2_witness :
    ([10, 11, 12] : List Nat).length ≤ max_ghosting_frames ∧
    (0 : ℚ) < 20 ∧
    ghost_alpha 20 (ghost_push [10, 11, 12] 13).length 0 = 20 ∧
    ghost_alpha 20 (ghost_push [10, 11, 12] 13).length 3 <
      ghost_alpha 20 (ghost_push [10, 11, 12] 13).length 2 :=
  ⟨by decide, by norm_num,
   (C2_ghosting [10, 11, 12] 13 20 (by decide) (by norm_num)).2.2.1,
   (C2_ghosting [10, 11, 12] 13 20 (by decide) (by norm_num)).2.2.2.1 2 3
     (by decide) (by decide)⟩

theorem new_food_loop_trap :
    ∀ fuel i, new_food_loop snake_trap rnd_demo i fuel = none := by
  intro fuel
  induction fuel with
  | zero => intro i; rfl
  | succ n ih =>
    intro i
    have hcand : food_candidate rnd_demo i = ⟨20, 20, 20, 20⟩ := rfl
    have hc : snake_trap.any
        (fun segment => segment.colliderect (food_candidate rnd_demo i)) =
          true := by
      rw [hcand]
      decide
    rw [new_food_loop, if_pos hc]
    exact ih (i + 1)

/-- C9 counterexample: `new_food` is not total — with the snake on the
top-left playable cell and a random stream that forever proposes that very
cell, the loop returns nothing at every fuel, although a free playable
cell (grid (2,2)) exists. -/
theorem C9_counterexample :
    (∀ segment ∈ snake_trap,
      segment.colliderect
        ⟨((2 * UNIT_SIZE : Nat) : Int), ((2 * UNIT_SIZE : Nat) : Int),
         (UNIT_SIZE : Int), (UNIT_SIZE : Int)⟩ = false) ∧
    min_x ≤ 2 ∧ 2 ≤ max_x ∧ min_y ≤ 2 ∧ 2 ≤ max_y ∧
    ∀ fuel, new_food_loop snake_trap rnd_demo 0 fuel = none :=
  ⟨by decide, by decide, by decide, by decide, by decide,
   fun fuel => new_food_loop_trap fuel 0⟩

/-- C9 (amended): `new_food` cannot fail, and it terminates whenever the
random stream eventually proposes a cell free of snake segments — with
enough fuel to reach that draw the loop returns a food; termination for
every stream is not guaranteed. -/
theorem C9_fair_termination (snake : List Rect) (rnd : Nat → Nat × Nat)
    (j : Nat)
    (hfree : snake.any
      (fun segment => segment.colliderect (food_candidate rnd j)) = false) :
    ∀ fuel i, i ≤ j → j - i < fuel →
      ∃ r, new_food_loop snake rnd i fuel = some r := by
  intro fuel
  induction fuel with
  | zero => intro i _ hlt; omega
  | succ n ih =>
    intro i hij hlt
    rw [new_food_loop]
    by_cases hc : snake.any
        (fun segment => segment.colliderect (food_candidate rnd i)) = true
    · rw [if_pos hc]
      have hne : i ≠ j := by
        intro he
        rw [he, hfree] at hc
        exact Bool.noConfusion hc
      exact ih (i + 1) (by omega) (by omega)
    · rw [if_neg hc]
      exact ⟨_, rfl⟩

/-- Witness for C9: the diagonal stream's second draw is the free cell
(2,2), so two units of fuel suffice from cursor 0. -/
theorem C9_witness :
    snake_trap.any
      (fun segment => segment.colliderect (food_candidate rnd_diag 1)) =
        false ∧
    (∃ r, new_food_loop snake_trap rnd_diag 0 2 = some r) :=
  ⟨by decide,
   C9_fair_termination snake_trap rnd_diag 1 (by decide) 2 0 (by decide)
     (by decide)⟩

end CrtSnake
